import Mathlib

/-!
# Verification of the dcsdemo envelope-encryption key-management core

A shallow embedding of the key-management logic of the dcsdemo repository:

* the client-side cryptographic wrappers (`client/src/utils/crypto.ts`),
* the client key agent (`client/src/context/CryptoContext.tsx`) and the
  login KEK derivation (`client/src/context/AuthContext.tsx`),
* the server key-store routes (`server/src/routes/keys.ts`),
* the password-change route (`server/src/routes/auth.ts`) and the
  role middleware (`server/src/middleware/auth.ts`).

The cryptographic primitives themselves (WebCrypto AES-GCM, RSA-OAEP,
PBKDF2 and Node's pbkdf2 password hashing) are external to the repository;
they are modelled symbolically, Dolev-Yao style: ciphertexts are terms
that remember the key they were produced under, decryption succeeds
exactly when the matching key is supplied and fails closed otherwise.
This matches the contracts in §4.1 of the specification.
-/

namespace DcsDemo

/-- Symbolic symmetric keys.  `kdf password salt` is the result of the
PBKDF2 derivation in `deriveKEK` (`crypto.ts` lines 47-69); `fresh n` is a
freshly generated random AES key (`generateDataKey`), identified by the
draw `n` of the underlying randomness. -/
inductive SymKey where
  | kdf (password : String) (salt : String)
  | fresh (n : Nat)
deriving DecidableEq, Repr, BEq

/-- Symbolic model of the JS strings handled by the client crypto layer.
In the source everything is a base64 string; here a string remembers the
structure it was produced with so that decryption can be modelled.

* `raw s` — an ordinary text string (plaintext, or garbage ciphertext);
* `symCt iv key pt` — output of `encryptData`/`encryptPrivateKey`-style
  AES-GCM encryption: base64 of IV `iv` followed by the ciphertext of
  `pt` under `key` (`crypto.ts` lines 190-206);
* `wrapCt pubId key` — output of `wrapDataKey`: RSA-OAEP wrap of `key`
  under the public key with pair id `pubId` (`crypto.ts` lines 165-173);
* `privCt iv kek privId` — output of `encryptPrivateKey`: the private key
  of pair `privId`, AES-GCM encrypted under `kek` (`crypto.ts` 72-93);
* `pubKeyStr pubId` — output of `exportPublicKey` for pair `pubId`. -/
inductive Str where
  | raw (s : String)
  | symCt (iv : Nat) (key : SymKey) (plaintext : Str)
  | wrapCt (pubId : Nat) (key : SymKey)
  | privCt (iv : Nat) (kek : SymKey) (privId : Nat)
  | pubKeyStr (pubId : Nat)
deriving DecidableEq, Repr, BEq

/-- Failures of the primitive layer (a rejected WebCrypto promise:
malformed input, wrong key, or authentication-tag mismatch). -/
inductive CryptoError where
  | primitiveFailure
deriving DecidableEq, Repr

/-- Modelled from the spec: PBKDF2 key derivation used by `deriveKEK`
(`crypto.ts` lines 47-69).  Deterministic in (password, salt); the
symbolic model makes distinct (password, salt) pairs yield distinct keys,
matching the spec's requirement that identity-specific salts separate
KEKs. -/
def deriveKEK (password salt : String) : SymKey :=
  SymKey.kdf password salt

/-- The salt used at login, `` `dcsdemo-kek-${username}` ``
(`AuthContext.tsx`, `login`). -/
def loginSalt (username : String) : String :=
  "dcsdemo-kek-" ++ username

/-- The KEK derived at login for a (non-seed) user
(`AuthContext.tsx`, `login`). -/
def loginKEK (password username : String) : SymKey :=
  deriveKEK password (loginSalt username)

/-- `encryptData` (`crypto.ts` lines 190-206): AES-GCM encryption of
`data` under `dataKey` with the freshly drawn IV `iv`, returned as the
base64 of IV ++ ciphertext. -/
def encryptData (data : Str) (dataKey : SymKey) (iv : Nat) : Str :=
  Str.symCt iv dataKey data

/-- Modelled from the spec: `decryptData` (`crypto.ts` lines 209-223),
AES-GCM decryption (WebCrypto `crypto.subtle.decrypt`).  Succeeds exactly
on a well-formed AES-GCM ciphertext under the same key; any other input
(malformed string, wrong key, tampered tag) rejects. -/
def decryptData : Str → SymKey → Except CryptoError Str
  | Str.symCt _ k pt, dataKey =>
      if k = dataKey then Except.ok pt else Except.error CryptoError.primitiveFailure
  | _, _ => Except.error CryptoError.primitiveFailure

/-- `wrapDataKey` (`crypto.ts` lines 165-173): RSA-OAEP wrap of a
symmetric key under the public key of pair `pubId`. -/
def wrapDataKey (dataKey : SymKey) (pubId : Nat) : Str :=
  Str.wrapCt pubId dataKey

/-- Modelled from the spec: `unwrapDataKey` (`crypto.ts` lines 176-187),
RSA-OAEP unwrap (WebCrypto `crypto.subtle.unwrapKey`).  Succeeds exactly
on a wrap produced under the public half of the pair `privId`. -/
def unwrapDataKey : Str → Nat → Except CryptoError SymKey
  | Str.wrapCt p k, privId =>
      if p = privId then Except.ok k else Except.error CryptoError.primitiveFailure
  | _, _ => Except.error CryptoError.primitiveFailure

/-- `encryptPrivateKey` (`crypto.ts` lines 72-93): the private key of
pair `privId`, AES-GCM encrypted under `kek` with IV `iv`. -/
def encryptPrivateKey (privId : Nat) (kek : SymKey) (iv : Nat) : Str :=
  Str.privCt iv kek privId

/-- Modelled from the spec: `decryptPrivateKey` (`crypto.ts` lines
96-119).  Succeeds exactly on an `encryptPrivateKey` blob under the same
KEK, returning the private key of the pair. -/
def decryptPrivateKey : Str → SymKey → Except CryptoError Nat
  | Str.privCt _ k pid, kek =>
      if k = kek then Except.ok pid else Except.error CryptoError.primitiveFailure
  | _, _ => Except.error CryptoError.primitiveFailure

/-- Modelled from the spec: `importPublicKey` (`crypto.ts` lines
144-153).  Succeeds exactly on an exported public key. -/
def importPublicKey : Str → Except CryptoError Nat
  | Str.pubKeyStr p => Except.ok p
  | _ => Except.error CryptoError.primitiveFailure

/-- Injectivity of the login salt: the fixed prefix makes the salt
identity-specific. -/
theorem loginSalt_injective {u₁ u₂ : String} (h : loginSalt u₁ = loginSalt u₂) :
    u₁ = u₂ := by
  unfold loginSalt at h
  have h' := congrArg String.data h
  rw [String.data_append, String.data_append] at h'
  exact String.ext (List.append_cancel_left h')

/-- C6: symmetric round-trip; decrypting under the same key returns the
plaintext, decrypting under any other key fails with a primitive
failure. -/
theorem c6_symmetric_roundtrip (m : Str) (k : SymKey) (iv : Nat) :
    decryptData (encryptData m k iv) k = Except.ok m ∧
    ∀ k' : SymKey, k' ≠ k →
      decryptData (encryptData m k iv) k' = Except.error CryptoError.primitiveFailure := by
  constructor
  · simp [encryptData, decryptData]
  · intro k' hk
    simp [encryptData, decryptData, Ne.symm hk]

/-- Witness for C6 at a concrete plaintext, key and wrong key. -/
theorem c6_symmetric_roundtrip_witness :
    decryptData (encryptData (Str.raw "secret") (SymKey.fresh 0) 3) (SymKey.fresh 0)
        = Except.ok (Str.raw "secret") ∧
    decryptData (encryptData (Str.raw "secret") (SymKey.fresh 0) 3) (SymKey.fresh 1)
        = Except.error CryptoError.primitiveFailure := by
  refine ⟨(c6_symmetric_roundtrip (Str.raw "secret") (SymKey.fresh 0) 3).1, ?_⟩
  exact (c6_symmetric_roundtrip (Str.raw "secret") (SymKey.fresh 0) 3).2
    (SymKey.fresh 1) (by decide)

/-- C7: wrap/unwrap round-trip — unwrapping with the private half of the
pair used for wrapping returns the wrapped symmetric key. -/
theorem c7_wrap_unwrap_roundtrip (pairId : Nat) (k : SymKey) :
    unwrapDataKey (wrapDataKey k pairId) pairId = Except.ok k := by
  simp [wrapDataKey, unwrapDataKey]

/-- C8: KEK derivation is deterministic (equal password and username give
an equal KEK on any two independent invocations), and the login salt is
identity-specific, so two distinct usernames with the same password get
distinct KEKs. -/
theorem c8_kek_deterministic_and_salt_specific :
    (∀ p u, loginKEK p u = loginKEK p u) ∧
    (∀ p u₁ u₂, u₁ ≠ u₂ → loginKEK p u₁ ≠ loginKEK p u₂) := by
  refine ⟨fun _ _ => rfl, fun p u₁ u₂ hne heq => hne ?_⟩
  have hsalt : loginSalt u₁ = loginSalt u₂ := by
    have := heq
    simp only [loginKEK, deriveKEK, SymKey.kdf.injEq] at this
    exact this.2
  exact loginSalt_injective hsalt

/-- Witness for C8 at two concrete distinct usernames. -/
theorem c8_kek_deterministic_and_salt_specific_witness :
    loginKEK "pw" "alice" = loginKEK "pw" "alice" ∧
    loginKEK "pw" "alice" ≠ loginKEK "pw" "bob" := by
  refine ⟨c8_kek_deterministic_and_salt_specific.1 "pw" "alice", ?_⟩
  exact c8_kek_deterministic_and_salt_specific.2 "pw" "alice" "bob" (by decide)

/-! ## Client key agent (`client/src/context/CryptoContext.tsx`) -/

/-- Errors thrown by the client key agent (`CryptoContext.tsx`). -/
inductive AgentError where
  | noDataKey          -- 'No data key available'
  | seedCannotSetup    -- 'Cannot set up keys for seed user'
  | noKek              -- 'No KEK available - please re-login'
deriving DecidableEq, Repr

/-- The agent-level `decrypt` (`CryptoContext.tsx` lines 204-213): throws
when no data key is held; otherwise calls `decryptData` and, on a
decryption failure, catches the error and returns the input string
unchanged (`return encryptedData; // Return as-is if decryption fails`). -/
def contextDecrypt (dataKey : Option SymKey) (encryptedData : Str) :
    Except AgentError Str :=
  match dataKey with
  | none => Except.error AgentError.noDataKey
  | some k =>
    match decryptData encryptedData k with
    | Except.ok plain => Except.ok plain
    | Except.error _ => Except.ok encryptedData

/-- The agent-level `encrypt` (`CryptoContext.tsx` lines 197-202). -/
def contextEncrypt (dataKey : Option SymKey) (data : Str) (iv : Nat) :
    Except AgentError Str :=
  match dataKey with
  | none => Except.error AgentError.noDataKey
  | some k => Except.ok (encryptData data k iv)

/-- The logged-in user as the crypto context sees it. -/
structure UserInfo where
  id : Nat
  username : String
deriving DecidableEq, Repr

/-- The key info row returned by `GET /api/keys/:userId` as consumed by
`loadKeys` (`public_key` is populated at row creation; the other two
columns may be NULL). -/
structure ServerKeyInfo where
  public_key : Str
  encrypted_private_key : Option Str
  wrapped_data_key : Option Str
deriving DecidableEq, Repr

/-- JS truthiness of a string: only the empty string is falsy. -/
def strTruthy : Str → Bool
  | Str.raw s => !(s == "")
  | _ => true

/-- JS truthiness of a nullable string: null/undefined and `''` are
falsy. -/
def optTruthy : Option Str → Bool
  | none => false
  | some s => strTruthy s

/-- The guard on `wrapped_data_key` in `loadKeys` (`CryptoContext.tsx`
lines 108-110): present, not the seed placeholder, and non-empty. -/
def wrappedUsable : Option Str → Bool
  | none => false
  | some s =>
      strTruthy s && !(s == Str.raw "SEED_WRAPPED_KEY_PLACEHOLDER")
        && !(s == Str.raw "")

/-- The React state of `CryptoProvider` that `loadKeys` reads and
writes: key pair (private pair id, public pair id), unwrapped data key,
exported public key string, and the two status flags. -/
structure ClientKeyState where
  keyPair : Option (Nat × Nat)
  dataKey : Option SymKey
  publicKeyString : Option Str
  needsKeySetup : Bool
  needsRelogin : Bool
  loading : Bool
deriving DecidableEq, Repr

/-- The provider's initial state (`useState` initialisers,
`CryptoContext.tsx` lines 37-42). -/
def initialClientState : ClientKeyState :=
  { keyPair := none, dataKey := none, publicKeyString := none,
    needsKeySetup := false, needsRelogin := false, loading := true }

/-- `loadKeys` (`CryptoContext.tsx` lines 64-134) as a state transition:
`st` is the provider state before the call, `user`/`kek` come from the
auth context, and `fetch` is the result of `keysApi.get(user.id)`
(`Except.error` models the request throwing).  Each `setX(v)` of the
source becomes a field update; state set before an exception is kept, as
React keeps queued updates when a later await throws. -/
def loadKeys (st : ClientKeyState) (user : Option UserInfo) (kek : Option SymKey)
    (fetch : Except Unit ServerKeyInfo) : ClientKeyState :=
  match user with
  | none =>
      { keyPair := none, dataKey := none, publicKeyString := none,
        needsKeySetup := false, needsRelogin := false, loading := false }
  | some u =>
    if u.username = "seed" then
      { st with needsKeySetup := false, needsRelogin := false, loading := false }
    else
      match kek with
      | none =>
          -- `if (!kek)` : missing KEK after a page refresh
          { st with needsRelogin := true, needsKeySetup := false, loading := false }
      | some kekKey =>
        match fetch with
        | Except.error _ =>
            { st with needsKeySetup := true, loading := false }
        | Except.ok keyInfo =>
          if optTruthy keyInfo.encrypted_private_key then
            match keyInfo.encrypted_private_key with
            | none =>
                -- unreachable: optTruthy none = false
                { st with needsKeySetup := true, needsRelogin := false, loading := false }
            | some epk =>
              match decryptPrivateKey epk kekKey with
              | Except.error _ =>
                  { st with needsKeySetup := true, needsRelogin := false, loading := false }
              | Except.ok privId =>
                match importPublicKey keyInfo.public_key with
                | Except.error _ =>
                    { st with needsKeySetup := true, needsRelogin := false, loading := false }
                | Except.ok pubId =>
                  let st₁ := { st with keyPair := some (privId, pubId),
                                       publicKeyString := some keyInfo.public_key }
                  if wrappedUsable keyInfo.wrapped_data_key then
                    match keyInfo.wrapped_data_key with
                    | none =>
                        -- unreachable: wrappedUsable none = false
                        { st₁ with needsKeySetup := true, needsRelogin := false, loading := false }
                    | some w =>
                      match unwrapDataKey w privId with
                      | Except.ok dk =>
                          { st₁ with dataKey := some dk,
                                     needsKeySetup := false, needsRelogin := false,
                                     loading := false }
                      | Except.error _ =>
                          { st₁ with needsKeySetup := true, needsRelogin := false,
                                     loading := false }
                  else
                    { st₁ with needsKeySetup := false, needsRelogin := false,
                               loading := false }
          else
            { st with needsKeySetup := true, needsRelogin := false, loading := false }

/-- `login` (`AuthContext.tsx` lines 51-62): after a successful login the
KEK is derived from the password with the username-based salt — except
for the seed user, for which no KEK is derived or stored. -/
def loginDerivedKEK (username password : String) : Option SymKey :=
  if username = "seed" then none else some (loginKEK password username)

/-- `setupKeys` (`CryptoContext.tsx` lines 136-169) up to the point where
the request is sent to the server: the guard for missing user / seed
user, the guard for a missing KEK, and the material submitted —
`(publicKey, encryptedPrivateKey, wrappedDataKey?)`.  `newPairId` is the
freshly generated key pair, `systemHasDataKey` the answer of
`GET /api/keys/system/has-data-key`, `newDataKeyDraw` the randomness of
`generateDataKey`, and `iv` the IV drawn by `encryptPrivateKey`. -/
def setupKeysRequest (user : Option UserInfo) (kek : Option SymKey)
    (newPairId : Nat) (systemHasDataKey : Bool) (newDataKeyDraw : Nat) (iv : Nat) :
    Except AgentError (Str × Str × Option Str) :=
  match user with
  | none => Except.error AgentError.seedCannotSetup
  | some u =>
    if u.username = "seed" then Except.error AgentError.seedCannotSetup
    else
      match kek with
      | none => Except.error AgentError.noKek
      | some kekKey =>
        let pubStr := Str.pubKeyStr newPairId
        let epk := encryptPrivateKey newPairId kekKey iv
        let wrapped :=
          if systemHasDataKey then none
          else some (wrapDataKey (SymKey.fresh newDataKeyDraw) newPairId)
        Except.ok (pubStr, epk, wrapped)

/-- The four key statuses actually distinguishable in the provider state:
`needsRelogin` (no local KEK), `needsKeySetup`, data key held (ready), or
keys held without a data key (pending access). -/
inductive CodeKeyStatus where
  | noLocalSecret
  | needsSetup
  | pendingAccess
  | ready
deriving DecidableEq, Repr

/-- Read the status off a provider state, in the order the UI consults
the flags. -/
def classifyClientState (st : ClientKeyState) : CodeKeyStatus :=
  if st.needsRelogin then CodeKeyStatus.noLocalSecret
  else if st.needsKeySetup then CodeKeyStatus.needsSetup
  else if st.dataKey.isSome then CodeKeyStatus.ready
  else CodeKeyStatus.pendingAccess

/-- The four-state transition rule that `loadKeys` actually implements
on a fresh session: no KEK → no-local-secret; fetch failure, absent or
empty `encrypted_private_key`, private-key decryption failure,
public-key import failure, or unwrap failure → needs-setup; decryption
success → ready when a usable `wrapped_data_key` unwraps, pending-access
when it is absent, empty or the seed placeholder. -/
def codeStatusRule (kek : Option SymKey) (fetch : Except Unit ServerKeyInfo) :
    CodeKeyStatus :=
  match kek with
  | none => CodeKeyStatus.noLocalSecret
  | some kekKey =>
    match fetch with
    | Except.error _ => CodeKeyStatus.needsSetup
    | Except.ok info =>
      match info.encrypted_private_key with
      | none => CodeKeyStatus.needsSetup
      | some epk =>
        if strTruthy epk then
          match decryptPrivateKey epk kekKey with
          | Except.error _ => CodeKeyStatus.needsSetup
          | Except.ok privId =>
            match importPublicKey info.public_key with
            | Except.error _ => CodeKeyStatus.needsSetup
            | Except.ok _ =>
              if wrappedUsable info.wrapped_data_key then
                match info.wrapped_data_key with
                | none => CodeKeyStatus.needsSetup
                | some w =>
                  match unwrapDataKey w privId with
                  | Except.ok _ => CodeKeyStatus.ready
                  | Except.error _ => CodeKeyStatus.needsSetup
              else CodeKeyStatus.pendingAccess
        else CodeKeyStatus.needsSetup

/-- C1 counterexample: a ciphertext encrypted under a different key
(`SymKey.fresh 1`) is handed to the agent's `decrypt` while it holds
`SymKey.fresh 0`; the call returns the ciphertext itself as if it were
plaintext, because the `catch` in `CryptoContext.tsx` line 211 returns
`encryptedData` as-is on decryption failure. -/
theorem c1_counterexample :
    contextDecrypt (some (SymKey.fresh 0))
        (Str.symCt 0 (SymKey.fresh 1) (Str.raw "pii"))
      = Except.ok (Str.symCt 0 (SymKey.fresh 1) (Str.raw "pii")) := by
  rfl

/-- C1 amended: the primitive `decryptData` does fail closed — on any
input it either fails with an explicit `primitiveFailure` or returns the
exact plaintext of a well-formed ciphertext under the supplied key,
never partial or garbage plaintext; but whenever the primitive fails,
the agent-level `decrypt` catches the failure and returns the input
ciphertext itself unchanged instead of an explicit failure result. -/
theorem c1_agent_decrypt_returns_input_on_failure (dk : SymKey) (enc : Str) :
    (decryptData enc dk = Except.error CryptoError.primitiveFailure ∨
      ∃ iv pt, enc = Str.symCt iv dk pt ∧ decryptData enc dk = Except.ok pt) ∧
    (∀ e, decryptData enc dk = Except.error e →
      contextDecrypt (some dk) enc = Except.ok enc) := by
  constructor
  · cases enc with
    | symCt iv k pt =>
        by_cases hk : k = dk
        · subst hk
          exact Or.inr ⟨iv, pt, rfl, by simp [decryptData]⟩
        · exact Or.inl (by simp [decryptData, hk])
    | raw s => exact Or.inl rfl
    | wrapCt p k => exact Or.inl rfl
    | privCt iv k pid => exact Or.inl rfl
    | pubKeyStr p => exact Or.inl rfl
  · intro e he
    simp [contextDecrypt, he]

/-- Witness for the amended C1 at a concrete malformed input. -/
theorem c1_agent_decrypt_returns_input_on_failure_witness :
    contextDecrypt (some (SymKey.fresh 0)) (Str.raw "garbage")
      = Except.ok (Str.raw "garbage") :=
  (c1_agent_decrypt_returns_input_on_failure (SymKey.fresh 0) (Str.raw "garbage")).2
    CryptoError.primitiveFailure rfl

/-- C2 counterexample: with a derived KEK in hand, a key record whose
`encrypted_private_key` fails to decrypt (it was encrypted under the KEK
of a different password) leads `loadKeys` to a state *identical* to the
one produced by a record with no `encrypted_private_key` at all: both
set `needsKeySetup`.  There is no fifth `SETUP_BROKEN` state distinct
from `NEEDS_SETUP` as the claim requires. -/
theorem c2_counterexample :
    loadKeys initialClientState (some ⟨1, "alice"⟩)
        (some (loginKEK "pw" "alice"))
        (Except.ok ⟨Str.pubKeyStr 7,
          some (encryptPrivateKey 7 (loginKEK "oldpw" "alice") 0), none⟩)
      = loadKeys initialClientState (some ⟨1, "alice"⟩)
        (some (loginKEK "pw" "alice"))
        (Except.ok ⟨Str.pubKeyStr 7, none, none⟩) ∧
    (loadKeys initialClientState (some ⟨1, "alice"⟩)
        (some (loginKEK "pw" "alice"))
        (Except.ok ⟨Str.pubKeyStr 7,
          some (encryptPrivateKey 7 (loginKEK "oldpw" "alice") 0), none⟩)).needsKeySetup
      = true := by
  constructor <;> rfl

/-- C2 amended: on every login/reload from a fresh session, `loadKeys`
produces exactly one of the four states {NO_LOCAL_SECRET, NEEDS_SETUP,
PENDING_ACCESS, READY}, following the rule of `codeStatusRule`: no local
KEK gives NO_LOCAL_SECRET; fetch failure, absent/empty
`encryptedPrivateKey`, private-key decryption failure, public-key import
failure, and unwrap failure all give NEEDS_SETUP (a decryption failure
is not distinguished from a missing blob — there is no separate
SETUP_BROKEN state); decryption success gives READY when the wrapped
data key is usable and unwraps, and PENDING_ACCESS when it is absent,
empty or the seed placeholder. -/
theorem c2_loadKeys_four_state_rule (u : UserInfo) (kek : Option SymKey)
    (fetch : Except Unit ServerKeyInfo) (hseed : u.username ≠ "seed") :
    classifyClientState (loadKeys initialClientState (some u) kek fetch)
      = codeStatusRule kek fetch := by
  simp only [loadKeys]
  rw [if_neg hseed]
  cases kek with
  | none => rfl
  | some kekKey =>
    cases fetch with
    | error e => rfl
    | ok info =>
      simp only [codeStatusRule]
      cases hepk : info.encrypted_private_key with
      | none => simp [optTruthy, classifyClientState, initialClientState]
      | some epk =>
        by_cases htr : strTruthy epk
        · simp only [optTruthy, htr, if_true]
          cases hdec : decryptPrivateKey epk kekKey with
          | error e => simp [classifyClientState, initialClientState]
          | ok privId =>
            cases himp : importPublicKey info.public_key with
            | error e => simp [classifyClientState, initialClientState]
            | ok pubId =>
              by_cases hw : wrappedUsable info.wrapped_data_key
              · simp only [hw, if_true]
                cases hwdk : info.wrapped_data_key with
                | none => rw [hwdk] at hw; simp [wrappedUsable] at hw
                | some w =>
                  cases hun : unwrapDataKey w privId with
                  | ok dk => simp [hun, classifyClientState, initialClientState]
                  | error e => simp [hun, classifyClientState, initialClientState]
              · simp [hw, classifyClientState, initialClientState]
        · simp [optTruthy, htr, classifyClientState, initialClientState]

/-- Witness for the amended C2: a fresh session without a KEK is
classified NO_LOCAL_SECRET, as the rule prescribes. -/
theorem c2_loadKeys_four_state_rule_witness :
    classifyClientState (loadKeys initialClientState (some ⟨1, "alice"⟩) none
        (Except.error ()))
      = codeStatusRule none (Except.error ()) :=
  c2_loadKeys_four_state_rule ⟨1, "alice"⟩ none (Except.error ()) (by decide)

/-- C10: the seed user is excluded from the key state machine — login
derives no KEK for it, `loadKeys` marks neither needs-setup nor
needs-relogin for it, and `setupKeys` always errors out for it. -/
theorem c10_seed_user_excluded :
    (∀ p, loginDerivedKEK "seed" p = none) ∧
    (∀ st kek fetch id,
        (loadKeys st (some ⟨id, "seed"⟩) kek fetch).needsKeySetup = false ∧
        (loadKeys st (some ⟨id, "seed"⟩) kek fetch).needsRelogin = false) ∧
    (∀ kek id pairId sysHas draw iv,
        setupKeysRequest (some ⟨id, "seed"⟩) kek pairId sysHas draw iv
          = Except.error AgentError.seedCannotSetup) := by
  refine ⟨fun p => by simp [loginDerivedKEK], fun st kek fetch id => ?_,
    fun kek id pairId sysHas draw iv => by simp [setupKeysRequest]⟩
  constructor <;> simp [loadKeys]

/-! ## Server key store and routes (`server/src/routes/keys.ts`,
`server/src/routes/auth.ts`, `server/src/middleware/auth.ts`) -/

/-- A `key_management` row joined with its role name (`roles.name`). -/
structure KeyRow where
  role_name : String
  public_key : Str
  encrypted_private_key : Option Str
  wrapped_data_key : Option Str
deriving DecidableEq, Repr

/-- The `key_management` table: at most one row per user id (the table
is unique on `user_id`). -/
def KeyStore : Type := Nat → Option KeyRow

/-- Modelled from the spec: the server-side PBKDF2 password verifier
(`server/src/utils/crypto.ts`): `hashPassword` draws a random salt and
stores `salt:derivedKey`; `verifyPassword` re-derives and compares.
Symbolically a hash remembers its salt draw and the hashed password, and
verification succeeds exactly for the hashed password. -/
inductive PwHash where
  | pbkdf2 (saltDraw : Nat) (password : String)
deriving DecidableEq, Repr

/-- `hashPassword` (`server/src/utils/crypto.ts` lines 7-15) with the
random salt draw made explicit. -/
def hashPassword (password : String) (saltDraw : Nat) : PwHash :=
  PwHash.pbkdf2 saltDraw password

/-- `verifyPassword` (`server/src/utils/crypto.ts` lines 17-25). -/
def verifyPassword (password : String) (h : PwHash) : Bool :=
  match h with
  | PwHash.pbkdf2 _ p => p == password

/-- A `users` row as far as the password-change route reads it. -/
structure UserRow where
  password_hash : PwHash
deriving DecidableEq, Repr

/-- The `users` table, keyed by user id. -/
def UserStore : Type := Nat → Option UserRow

/-- HTTP error responses of the key and auth routes. -/
inductive HttpError where
  | badRequest     -- 400
  | unauthorized   -- 401
  | forbidden      -- 403
  | notFound       -- 404
deriving DecidableEq, Repr

/-- `requireAdmin` (`middleware/auth.ts` lines 11-23): look up the
session user's role via `key_management` joined with `roles`; anything
other than `'admin-role'` (including a missing row) is rejected. -/
def requireAdminOk (store : KeyStore) (sessionUserId : Nat) : Bool :=
  match store sessionUserId with
  | some row => row.role_name == "admin-role"
  | none => false

/-- `POST /api/keys/grant` (`keys.ts` lines 44-60), behind `requireAuth`
and `requireAdmin`.  `userId = 0` models a falsy `userId` in the body
(SQLite row ids start at 1). -/
def grantRoute (store : KeyStore) (sessionUserId : Option Nat)
    (userId : Nat) (wrappedDataKey : Str) :
    KeyStore × Except HttpError Unit :=
  match sessionUserId with
  | none => (store, Except.error HttpError.unauthorized)
  | some sid =>
    if !(requireAdminOk store sid) then
      (store, Except.error HttpError.forbidden)
    else if userId == 0 || !(strTruthy wrappedDataKey) then
      (store, Except.error HttpError.badRequest)
    else
      (fun id => if id = userId then
          (store id).map (fun r => { r with wrapped_data_key := some wrappedDataKey })
        else store id,
       Except.ok ())

/-- `DELETE /api/keys/reset/:userId` (`keys.ts` lines 91-108), behind
`requireAuth` and `requireAdmin`: sets `public_key = ''` and
`wrapped_data_key = ''` on the target row and touches nothing else (in
particular not `encrypted_private_key`). -/
def resetRoute (store : KeyStore) (sessionUserId : Option Nat) (userId : Nat) :
    KeyStore × Except HttpError Unit :=
  match sessionUserId with
  | none => (store, Except.error HttpError.unauthorized)
  | some sid =>
    if !(requireAdminOk store sid) then
      (store, Except.error HttpError.forbidden)
    else
      (fun id => if id = userId then
          (store id).map (fun r =>
            { r with public_key := Str.raw "", wrapped_data_key := some (Str.raw "") })
        else store id,
       Except.ok ())

/-- The JSON body answered by `PUT /api/keys/setup`: `existing` plus the
existing key material when `existing` is true. -/
structure SetupResponse where
  existing : Bool
  public_key : Option Str
  encrypted_private_key : Option Str
  wrapped_data_key : Option Str
deriving DecidableEq, Repr

/-- The store write of the new-user branch of `PUT /api/keys/setup`
(`keys.ts` lines 143-158): with a truthy `wrappedDataKey` all three key
columns are written, otherwise only `public_key` and
`encrypted_private_key`. -/
def writeSetupKeys (store : KeyStore) (uid : Nat) (pk epk : Str)
    (wdk : Option Str) : KeyStore :=
  fun id => if id = uid then
      (store id).map (fun r =>
        if optTruthy wdk then
          { r with public_key := pk, encrypted_private_key := some epk,
                   wrapped_data_key := wdk }
        else
          { r with public_key := pk, encrypted_private_key := some epk })
    else store id

/-- `PUT /api/keys/setup` (`keys.ts` lines 111-165), behind
`requireAuth`: validate the body, then — if the session user's row
already holds a truthy `encrypted_private_key` — answer with the
existing material and write nothing; otherwise store the submitted
material. -/
def setupRoute (store : KeyStore) (sessionUserId : Option Nat)
    (publicKey encryptedPrivateKey : Str) (wrappedDataKey : Option Str) :
    KeyStore × Except HttpError SetupResponse :=
  match sessionUserId with
  | none => (store, Except.error HttpError.unauthorized)
  | some uid =>
    if !(strTruthy publicKey && strTruthy encryptedPrivateKey) then
      (store, Except.error HttpError.badRequest)
    else
      match store uid with
      | some row =>
        if optTruthy row.encrypted_private_key then
          (store, Except.ok
            { existing := true,
              public_key := some row.public_key,
              encrypted_private_key := row.encrypted_private_key,
              wrapped_data_key := row.wrapped_data_key })
        else
          (writeSetupKeys store uid publicKey encryptedPrivateKey wrappedDataKey,
           Except.ok { existing := false, public_key := none,
                       encrypted_private_key := none, wrapped_data_key := none })
      | none =>
          (writeSetupKeys store uid publicKey encryptedPrivateKey wrappedDataKey,
           Except.ok { existing := false, public_key := none,
                       encrypted_private_key := none, wrapped_data_key := none })

/-- `POST /api/auth/change-password` (`auth.ts` lines 131-181):
authenticate the session, validate the body, verify the current password
against the stored verifier, then replace the verifier and the
`encrypted_private_key` blob; `newSaltDraw` is the salt randomness of
`hashPassword`. -/
def changePasswordRoute (users : UserStore) (keys : KeyStore)
    (sessionUserId : Option Nat) (currentPassword newPassword : String)
    (newEncryptedPrivateKey : Str) (newSaltDraw : Nat) :
    UserStore × KeyStore × Except HttpError Unit :=
  match sessionUserId with
  | none => (users, keys, Except.error HttpError.unauthorized)
  | some uid =>
    if currentPassword == "" || newPassword == ""
        || !(strTruthy newEncryptedPrivateKey) then
      (users, keys, Except.error HttpError.badRequest)
    else
      match users uid with
      | none => (users, keys, Except.error HttpError.notFound)
      | some u =>
        if !(verifyPassword currentPassword u.password_hash) then
          (users, keys, Except.error HttpError.unauthorized)
        else
          (fun id => if id = uid then
              some { password_hash := hashPassword newPassword newSaltDraw }
            else users id,
           fun id => if id = uid then
              (keys id).map (fun r =>
                { r with encrypted_private_key := some newEncryptedPrivateKey })
            else keys id,
           Except.ok ())

/-- A concrete key store used by the concrete-instance theorems: user 1
is an enrolled admin, user 2 an enrolled user without a grant. -/
def sampleAdminRow : KeyRow :=
  { role_name := "admin-role", public_key := Str.pubKeyStr 1,
    encrypted_private_key := some (Str.privCt 0 (loginKEK "adminpw" "admin") 1),
    wrapped_data_key := some (Str.wrapCt 1 (SymKey.fresh 0)) }

/-- The enrolled, not-yet-granted user 2 of the sample store. -/
def sampleUserRow : KeyRow :=
  { role_name := "user-role", public_key := Str.pubKeyStr 2,
    encrypted_private_key := some (Str.privCt 1 (loginKEK "alicepw" "alice") 2),
    wrapped_data_key := none }

/-- Sample `key_management` table with the two rows above. -/
def sampleKeyStore : KeyStore :=
  fun id => if id = 1 then some sampleAdminRow
    else if id = 2 then some sampleUserRow else none

/-- C3: when the session user's row already holds a truthy
`encrypted_private_key`, a repeated setup call writes nothing — the
store is returned unchanged — and answers with the existing public key,
encrypted private key and wrapped data key instead of the submitted
material. -/
theorem c3_setup_idempotent (store : KeyStore) (uid : Nat) (row : KeyRow)
    (e pk epk : Str) (wdk : Option Str)
    (hrow : store uid = some row)
    (hepk : row.encrypted_private_key = some e)
    (he : strTruthy e = true)
    (hpk : strTruthy pk = true) (hsub : strTruthy epk = true) :
    setupRoute store (some uid) pk epk wdk
      = (store, Except.ok
          { existing := true,
            public_key := some row.public_key,
            encrypted_private_key := some e,
            wrapped_data_key := row.wrapped_data_key }) := by
  simp [setupRoute, hrow, hpk, hsub, optTruthy, hepk, he]

/-- Witness for C3: user 2 of the sample store repeats setup with fresh
material; the store answer is its original material. -/
theorem c3_setup_idempotent_witness :
    setupRoute sampleKeyStore (some 2) (Str.pubKeyStr 9)
        (Str.privCt 2 (loginKEK "alicepw" "alice") 9) none
      = (sampleKeyStore, Except.ok
          { existing := true,
            public_key := some sampleUserRow.public_key,
            encrypted_private_key := some (Str.privCt 1 (loginKEK "alicepw" "alice") 2),
            wrapped_data_key := sampleUserRow.wrapped_data_key }) :=
  c3_setup_idempotent sampleKeyStore 2 sampleUserRow
    (Str.privCt 1 (loginKEK "alicepw" "alice") 2) (Str.pubKeyStr 9)
    (Str.privCt 2 (loginKEK "alicepw" "alice") 9) none
    rfl rfl rfl rfl rfl

/-- C4: the admin key reset clears the target's `public_key` and
`wrapped_data_key` (to `''`), leaves its `encrypted_private_key`
unchanged, and modifies no other user's row. -/
theorem c4_reset_frame (store : KeyStore) (sid uid : Nat) (row : KeyRow)
    (hadmin : requireAdminOk store sid = true) (hrow : store uid = some row) :
    (resetRoute store (some sid) uid).2 = Except.ok () ∧
    (resetRoute store (some sid) uid).1 uid
      = some { role_name := row.role_name,
               public_key := Str.raw "",
               encrypted_private_key := row.encrypted_private_key,
               wrapped_data_key := some (Str.raw "") } ∧
    ∀ id, id ≠ uid → (resetRoute store (some sid) uid).1 id = store id := by
  refine ⟨by simp [resetRoute, hadmin], by simp [resetRoute, hadmin, hrow], ?_⟩
  intro id hid
  simp [resetRoute, hadmin, hid]

/-- Witness for C4: admin 1 resets user 2 in the sample store; user 2
keeps its encrypted private key while the other two fields are cleared,
and admin 1's own row is untouched. -/
theorem c4_reset_frame_witness :
    (resetRoute sampleKeyStore (some 1) 2).1 2
      = some { role_name := sampleUserRow.role_name,
               public_key := Str.raw "",
               encrypted_private_key := sampleUserRow.encrypted_private_key,
               wrapped_data_key := some (Str.raw "") } ∧
    (resetRoute sampleKeyStore (some 1) 2).1 1 = sampleKeyStore 1 :=
  ⟨(c4_reset_frame sampleKeyStore 1 2 sampleUserRow rfl rfl).2.1,
   (c4_reset_frame sampleKeyStore 1 2 sampleUserRow rfl rfl).2.2 1 (by decide)⟩

/-- C5: a password change that proves the current password replaces
exactly the password verifier and the `encrypted_private_key` blob; the
caller's `wrapped_data_key` and `public_key` are unchanged, no other
user's rows change, and a failed current-password check changes
nothing. -/
theorem c5_change_password_frame (users : UserStore) (keys : KeyStore)
    (uid : Nat) (current new : String) (newEpk : Str) (salt : Nat) (u : UserRow)
    (hcur : (current == "") = false) (hnew : (new == "") = false)
    (hepk : strTruthy newEpk = true) (huser : users uid = some u) :
    (verifyPassword current u.password_hash = true →
      (changePasswordRoute users keys (some uid) current new newEpk salt).2.2
          = Except.ok () ∧
      (changePasswordRoute users keys (some uid) current new newEpk salt).1 uid
          = some { password_hash := hashPassword new salt } ∧
      (changePasswordRoute users keys (some uid) current new newEpk salt).2.1 uid
          = (keys uid).map (fun r => { r with encrypted_private_key := some newEpk }) ∧
      ((changePasswordRoute users keys (some uid) current new newEpk salt).2.1 uid).map
          KeyRow.wrapped_data_key = (keys uid).map KeyRow.wrapped_data_key ∧
      ((changePasswordRoute users keys (some uid) current new newEpk salt).2.1 uid).map
          KeyRow.public_key = (keys uid).map KeyRow.public_key ∧
      (∀ id, id ≠ uid →
        (changePasswordRoute users keys (some uid) current new newEpk salt).1 id
            = users id ∧
        (changePasswordRoute users keys (some uid) current new newEpk salt).2.1 id
            = keys id)) ∧
    (verifyPassword current u.password_hash = false →
      changePasswordRoute users keys (some uid) current new newEpk salt
        = (users, keys, Except.error HttpError.unauthorized)) := by
  constructor
  · intro hver
    refine ⟨by simp [changePasswordRoute, hcur, hnew, hepk, huser, hver],
      by simp [changePasswordRoute, hcur, hnew, hepk, huser, hver],
      by simp [changePasswordRoute, hcur, hnew, hepk, huser, hver],
      ?_, ?_, ?_⟩
    · simp [changePasswordRoute, hcur, hnew, hepk, huser, hver]
      cases keys uid <;> rfl
    · simp [changePasswordRoute, hcur, hnew, hepk, huser, hver]
      cases keys uid <;> rfl
    · intro id hid
      constructor <;> simp [changePasswordRoute, hcur, hnew, hepk, huser, hver, hid]
  · intro hver
    simp [changePasswordRoute, hcur, hnew, hepk, huser, hver]

/-- A sample `users` table: user 2 is alice with password `alicepw`. -/
def sampleUserStore : UserStore :=
  fun id => if id = 2 then some { password_hash := hashPassword "alicepw" 5 } else none

/-- Witness for C5 at user 2 of the sample stores: a change with the
right current password swaps verifier and blob and keeps the wrapped
data key; one with a wrong current password changes nothing. -/
theorem c5_change_password_frame_witness :
    ((changePasswordRoute sampleUserStore sampleKeyStore (some 2)
        "alicepw" "newpw" (Str.privCt 3 (loginKEK "newpw" "alice") 2) 6).1 2
      = some { password_hash := hashPassword "newpw" 6 }) ∧
    ((changePasswordRoute sampleUserStore sampleKeyStore (some 2)
        "alicepw" "newpw" (Str.privCt 3 (loginKEK "newpw" "alice") 2) 6).2.1 2).map
        KeyRow.wrapped_data_key = (sampleKeyStore 2).map KeyRow.wrapped_data_key ∧
    changePasswordRoute sampleUserStore sampleKeyStore (some 2)
        "wrongpw" "newpw" (Str.privCt 3 (loginKEK "newpw" "alice") 2) 6
      = (sampleUserStore, sampleKeyStore, Except.error HttpError.unauthorized) := by
  refine ⟨((c5_change_password_frame sampleUserStore sampleKeyStore 2
      "alicepw" "newpw" (Str.privCt 3 (loginKEK "newpw" "alice") 2) 6
      { password_hash := hashPassword "alicepw" 5 }
      rfl rfl rfl rfl).1 rfl).2.1,
    ((c5_change_password_frame sampleUserStore sampleKeyStore 2
      "alicepw" "newpw" (Str.privCt 3 (loginKEK "newpw" "alice") 2) 6
      { password_hash := hashPassword "alicepw" 5 }
      rfl rfl rfl rfl).1 rfl).2.2.2.1,
    (c5_change_password_frame sampleUserStore sampleKeyStore 2
      "wrongpw" "newpw" (Str.privCt 3 (loginKEK "newpw" "alice") 2) 6
      { password_hash := hashPassword "alicepw" 5 }
      rfl rfl rfl rfl).2 rfl⟩

/-- C9: a caller whose role is not `admin-role` (or who has no key row
at all) is rejected with a 403 by both the grant and the reset route,
with the key store — in particular the target's row — left completely
unchanged. -/
theorem c9_non_admin_rejected (store : KeyStore) (sid uid : Nat) (w : Str)
    (hnot : requireAdminOk store sid = false) :
    grantRoute store (some sid) uid w = (store, Except.error HttpError.forbidden) ∧
    resetRoute store (some sid) uid = (store, Except.error HttpError.forbidden) := by
  constructor
  · simp [grantRoute, hnot]
  · simp [resetRoute, hnot]

/-- Witness for C9: non-admin user 2 calls grant and reset on admin 1 in
the sample store; both are rejected and the store is unchanged. -/
theorem c9_non_admin_rejected_witness :
    grantRoute sampleKeyStore (some 2) 1 (Str.wrapCt 1 (SymKey.fresh 0))
        = (sampleKeyStore, Except.error HttpError.forbidden) ∧
    resetRoute sampleKeyStore (some 2) 1
        = (sampleKeyStore, Except.error HttpError.forbidden) :=
  c9_non_admin_rejected sampleKeyStore 2 1 (Str.wrapCt 1 (SymKey.fresh 0)) rfl

end DcsDemo
